import Mathlib

/-!
Shallow embedding of the Google Maps business scraper (`src/app.py`).

Python strings are modelled as `List Char`; `None`-able string attributes are
modelled as `Option (List Char)`.  Browser operations that can raise are
modelled with `Except`, and the browser/DOM environment (element texts,
anchor counts, navigation outcomes) is supplied as explicit data, so that the
purely algorithmic parts of the program (query parsing, the scroll loop,
field extraction, e-mail matching, deduplication, failure isolation) become
total functions that can be reasoned about and evaluated.
-/

/-- Python string truthiness for an optional string: `None` and `""` are falsy. -/
def truthy : Option (List Char) → Bool
  | none => false
  | some s => !s.isEmpty

/-- Python `x or ""` applied to an optional string (`self.name or ""`). -/
def strOrEmpty : Option (List Char) → List Char
  | none => []
  | some s => s

/-- Python `a or b` on two strings: `a` if it is non-empty, else `b`. -/
def pyOr (a b : List Char) : List Char :=
  if a.isEmpty then b else a

/-- The characters removed by Python `str.strip()` (ASCII whitespace). -/
def isPyWhitespace (c : Char) : Bool :=
  c = ' ' || c = '\t' || c = '\n' || c = '\r' || c = '\x0b' || c = '\x0c'

/-- Python `str.strip()`: drop whitespace from both ends. -/
def pyStrip (s : List Char) : List Char :=
  ((s.dropWhile isPyWhitespace).reverse.dropWhile isPyWhitespace).reverse

/-- The `Business` dataclass of `src/app.py` (all fields default to `None`). -/
structure Business where
  name : Option (List Char) := none
  address : Option (List Char) := none
  domain : Option (List Char) := none
  website : Option (List Char) := none
  phone_number : Option (List Char) := none
  email : Option (List Char) := none
  category : Option (List Char) := none
  location : Option (List Char) := none
deriving DecidableEq, Repr

/-- The identity tuple built by `Business.__hash__`: `[self.name or ""]` plus a
tagged entry for each of `domain`, `website`, `phone_number` that is truthy, in
that fixed order.  The Python code feeds this tuple to `hash`; we keep the
tuple itself as the identity key (hashing is injective-modulo-collision and the
dedup logic only compares keys for equality). -/
def identityKey (b : Business) : List (List Char) :=
  [strOrEmpty b.name]
    ++ (if truthy b.domain then ["domain:".toList ++ strOrEmpty b.domain] else [])
    ++ (if truthy b.website then ["website:".toList ++ strOrEmpty b.website] else [])
    ++ (if truthy b.phone_number then ["phone:".toList ++ strOrEmpty b.phone_number] else [])

/-- The `BusinessList` dataclass: an ordered record sequence plus the set of
already-seen identity keys (`_seen_businesses`, modelled as a list of keys). -/
structure BusinessList where
  business_list : List Business := []
  seen_businesses : List (List (List Char)) := []
deriving DecidableEq, Repr

/-- A freshly constructed `BusinessList()`. -/
def emptyBusinessList : BusinessList :=
  { business_list := [], seen_businesses := [] }

/-- `BusinessList.add_business`: append the record and remember its key unless
the key was already seen; otherwise discard the record silently. -/
def add_business (bl : BusinessList) (b : Business) : BusinessList :=
  if identityKey b ∈ bl.seen_businesses then bl
  else
    { business_list := bl.business_list ++ [b],
      seen_businesses := identityKey b :: bl.seen_businesses }

/-- Add a whole list of records in order (repeated `add_business` calls). -/
def addAll : BusinessList → List Business → BusinessList
  | bl, [] => bl
  | bl, b :: rest => addAll (add_business bl b) rest

/-- First record used by the C1 counterexample. -/
def c1First : Business :=
  { name := some "Acme".toList, address := some "1 High St".toList,
    domain := some "acme.com".toList, website := some "https://acme.com".toList,
    phone_number := some "111".toList, email := some "a@acme.com".toList,
    category := some "stores".toList, location := some "york".toList }

/-- Second record used by the C1 counterexample: same `name` and `domain` as
`c1First`, every other field different (and non-empty). -/
def c1Second : Business :=
  { name := some "Acme".toList, address := some "2 Low St".toList,
    domain := some "acme.com".toList, website := some "http://acme.org".toList,
    phone_number := some "222".toList, email := some "b@acme.com".toList,
    category := some "shops".toList, location := some "uk".toList }

/-- First record for the C1 witness: agrees with `c1WitnessSecond` on the four
hashed fields, differs elsewhere. -/
def c1WitnessFirst : Business :=
  { name := some "Beta".toList, address := some "3 Mid St".toList,
    domain := some "beta.io".toList, website := some "https://beta.io".toList,
    phone_number := some "333".toList, email := some "x@beta.io".toList,
    category := some "cafes".toList, location := some "leeds".toList }

/-- Second record for the C1 witness. -/
def c1WitnessSecond : Business :=
  { name := some "Beta".toList, address := some "4 End St".toList,
    domain := some "beta.io".toList, website := some "https://beta.io".toList,
    phone_number := some "333".toList, email := some "y@beta.io".toList,
    category := some "bars".toList, location := some "hull".toList }

/-- First record for the C5 witness (same name as the second, different domain). -/
def c5WitnessFirst : Business :=
  { name := some "Gamma".toList, domain := some "gamma.com".toList }

/-- Second record for the C5 witness. -/
def c5WitnessSecond : Business :=
  { name := some "Gamma".toList, domain := some "gamma.org".toList }

/-- Python `query.split(" in ")`: split on every non-overlapping occurrence of
the four-character separator `" in "`, scanning left to right.  The result is
always non-empty (a string without the separator yields a singleton). -/
def pySplitIn : List Char → List (List Char)
  | [] => [[]]
  | ' ' :: 'i' :: 'n' :: ' ' :: rest => [] :: pySplitIn rest
  | c :: rest =>
    match pySplitIn rest with
    | [] => [[c]]
    | p :: ps => (c :: p) :: ps

/-- The text strictly before the first occurrence of `" in "` (the whole
string when the separator is absent).  Used to characterize `pySplitIn`. -/
def beforeFirstIn : List Char → List Char
  | [] => []
  | ' ' :: 'i' :: 'n' :: ' ' :: _ => []
  | c :: rest => c :: beforeFirstIn rest

/-- The text strictly after the first occurrence of `" in "`, or `none` when
the separator is absent.  Used to characterize `pySplitIn`. -/
def afterFirstIn : List Char → Option (List Char)
  | [] => none
  | ' ' :: 'i' :: 'n' :: ' ' :: rest => some rest
  | _ :: rest => afterFirstIn rest

/-- The category/location pair produced by the query-parsing step. -/
structure ParsedQuery where
  category : List Char
  location : List Char
deriving DecidableEq, Repr

/-- Lines 113–116 of `src/app.py`:
`parts = [p.strip() for p in query.split(" in ")]`,
`category = parts[0] if parts else query`,
`location = parts[1] if len(parts) > 1 else ""`. -/
def parseQuery (query : List Char) : ParsedQuery :=
  let parts := (pySplitIn query).map pyStrip
  { category := parts.headD query, location := parts.getD 1 [] }

/-- The behaviour of one locator resolution inside a scope: whether the
`count()` call raises, whether `first.inner_text()` raises (timeouts and
detached elements included), and the inner texts of the matched elements in
DOM order (`count()` returns their number, `first` is the head). -/
structure LocBehavior where
  countFails : Bool
  textFails : Bool
  texts : List (List Char)
deriving DecidableEq, Repr

/-- The `try` block of `_safe_text` (lines 77–84 of `src/app.py`):
`Except.error` models an exception escaping the block, `Except.ok none`
models falling through (count was zero) to the final `return ""`. -/
def safeTextBody (loc : LocBehavior) : Except Unit (Option (List Char)) :=
  if loc.countFails then Except.error ()
  else if loc.texts.length ≠ 0 then
    if loc.textFails then Except.error ()
    else Except.ok (some (pyStrip (loc.texts.headD [])))
  else Except.ok none

/-- `_safe_text`: the body with every exception swallowed into `""`. -/
def safeText (loc : LocBehavior) : List Char :=
  match safeTextBody loc with
  | Except.ok (some s) => s
  | Except.ok none => []
  | Except.error _ => []

/-- Spec-side reading of the C4 claim (named after the spec's words, for
comparison with `safeText`): the trimmed text of the first matching element
whose trimmed text is non-empty. -/
def specFirstNonEmptyText (texts : List (List Char)) : List Char :=
  (((texts.map pyStrip).filter (fun t => !t.isEmpty)).headD [])

/-- Locator behaviour for the C4 counterexample: two matched elements, the
first with empty text, the second with text `"Acme Co"`; no access fails. -/
def c4Loc : LocBehavior :=
  { countFails := false, textFails := false, texts := [[], "Acme Co".toList] }

/-- Locator behaviours for the C4 witness. -/
def c4WitnessOk : LocBehavior :=
  { countFails := false, textFails := false, texts := [" Acme ".toList] }

def c4WitnessEmpty : LocBehavior :=
  { countFails := false, textFails := false, texts := [] }

def c4WitnessCountFail : LocBehavior :=
  { countFails := true, textFails := false, texts := ["Acme".toList] }

def c4WitnessTextFail : LocBehavior :=
  { countFails := false, textFails := true, texts := ["Acme".toList] }

/-- Character class `[a-zA-Z0-9._%+\-]` of `EMAIL_REGEX` (the local part). -/
def isLocalChar (c : Char) : Bool :=
  c.isAlpha || c.isDigit || c = '.' || c = '_' || c = '%' || c = '+' || c = '-'

/-- Character class `[a-zA-Z0-9.\-]` of `EMAIL_REGEX` (the domain part). -/
def isDomainChar (c : Char) : Bool :=
  c.isAlpha || c.isDigit || c = '.' || c = '-'

/-- Backtracking for the `[a-zA-Z0-9.\-]+\.[a-zA-Z]{2,}` tail of
`EMAIL_REGEX`, applied to the text after the `@`: the greedy `+` first
consumes the maximal domain-character run, then gives characters back one by
one (lengths `j, j-1, …, 1`) until the literal `.` and a greedy run of at
least two letters can match.  Returns the full matched tail. -/
def emailTail (s : List Char) : Nat → Option (List Char)
  | 0 => none
  | j + 1 =>
    match s.drop (j + 1) with
    | '.' :: afterDot =>
      let tld := afterDot.takeWhile Char.isAlpha
      if 2 ≤ tld.length then some (s.take (j + 1) ++ '.' :: tld)
      else emailTail s j
    | _ => emailTail s j

/-- Match `EMAIL_REGEX` anchored at the start of `s`: a non-empty greedy run of
local-part characters (no backtracking can help, since `@` is not a local-part
character), the literal `@`, then the backtracking domain/TLD tail. -/
def matchEmailAt (s : List Char) : Option (List Char) :=
  let lp := s.takeWhile isLocalChar
  match s.drop lp.length with
  | '@' :: afterAt =>
    if lp.isEmpty then none
    else
      match emailTail afterAt (afterAt.takeWhile isDomainChar).length with
      | some t => some (lp ++ '@' :: t)
      | none => none
  | _ => none

/-- The leftmost `EMAIL_REGEX` match in `s` (the element `findall(...)[0]`
returned by the code): try each start position from the left. -/
def findFirstEmail : List Char → Option (List Char)
  | [] => none
  | c :: rest =>
    match matchEmailAt (c :: rest) with
    | some m => some m
    | none => findFirstEmail rest

/-- `scrape_email_from_website` (lines 87–106 of `src/app.py`), with the page
interaction abstracted: `fetch` is `Except.error ()` when navigation or
content retrieval raises (the `except Exception: pass` path), and
`Except.ok html` when `page.content()` returns `html` (`none` models a `None`
content, which the code replaces by `""` via `html or ""`).  Returns the first
regex match, or `""` when there is none or anything failed. -/
def scrape_email_from_website (fetch : Except Unit (Option (List Char))) : List Char :=
  match fetch with
  | Except.error _ => []
  | Except.ok html =>
    match findFirstEmail (html.getD []) with
    | some m => m
    | none => []

/-- Lines 185 of `src/app.py`: prefix `https://www.` unless the text already
starts with `http`. -/
def normalizeWebsite (t : List Char) : List Char :=
  if "http".toList.isPrefixOf t then t else "https://www.".toList ++ t

/-- Lines 182–187 of `src/app.py`: when the extracted website text is truthy,
set `domain` to it and `website` to its normalization; otherwise set `website`
to `""` (and leave `domain` untouched, i.e. `None`). -/
def applyWebsiteFields (b : Business) (websiteText : List Char) : Business :=
  if !websiteText.isEmpty then
    { b with domain := some websiteText, website := some (normalizeWebsite websiteText) }
  else
    { b with website := some [] }

/-- Why the scroll loop stopped. -/
inductive ScrollExit where
  | reachedTotal
  | stalled
  | capped
deriving DecidableEq, Repr

/-- The scroll/collect loop (lines 141–151 of `src/app.py`).  `c i` is the
anchor count observed by the `i`-th DOM query (the loop queries indices
`0, 1, 2, …`), `prev` is `previously_counted` (initialized to `0`), `i` counts
loop iterations already executed, and the fuel starts at the 50-iteration cap.
Returns the number of iterations executed and the exit reason. -/
def scrollLoopAux (c : Nat → Nat) (total : Nat) : Nat → Nat → Nat → Nat × ScrollExit
  | _prev, i, 0 => (i, ScrollExit.capped)
  | prev, i, n + 1 =>
    let countNow := c i
    if total ≤ countNow then (i + 1, ScrollExit.reachedTotal)
    else if countNow = prev then (i + 1, ScrollExit.stalled)
    else scrollLoopAux c total countNow (i + 1) n

/-- The loop entered with `previously_counted = 0` and `max_scroll_loops = 50`. -/
def scrollLoop (c : Nat → Nat) (total : Nat) : Nat × ScrollExit :=
  scrollLoopAux c total 0 0 50

/-- The simulated anchor counter of the spec's scroll-loop test property:
successive DOM queries observe `5, 12, 20, 20, 20, …`. -/
def counts3 : Nat → Nat := fun i => [5, 12, 20, 20].getD i 20

/-- The environment one listing presents to the per-listing loop body:
whether `listing.click()` raises, the locator behaviours of the five
field lookups, and the e-mail page-fetch outcome for the listing's website. -/
structure ListingEnv where
  clickFails : Bool
  namePrimary : LocBehavior
  nameFallback : LocBehavior
  nameGeneric : LocBehavior
  addressLoc : LocBehavior
  websiteLoc : LocBehavior
  phoneLoc : LocBehavior
  emailFetch : Except Unit (Option (List Char))

/-- The body of the per-listing loop (lines 169–202 of `src/app.py`):
click, assemble the record field by field, and return it — or
`Except.error ()` when an exception is raised (only the unguarded
`listing.click()` can raise; every field read is a `_safe_text` call and the
e-mail crawl swallows its own failures). -/
def extractRecord (category location : List Char) (env : ListingEnv) : Except Unit Business :=
  if env.clickFails then Except.error ()
  else
    let nameTxt := pyOr (safeText env.namePrimary)
      (pyOr (safeText env.nameFallback) (safeText env.nameGeneric))
    let b1 : Business := { name := some nameTxt, address := some (safeText env.addressLoc) }
    let b2 := applyWebsiteFields b1 (safeText env.websiteLoc)
    let b3 := { b2 with phone_number := some (safeText env.phoneLoc) }
    let b4 := { b3 with email := some (if truthy b3.website then
      pyOr (scrape_email_from_website env.emailFetch) [] else []) }
    Except.ok { b4 with category := some category, location := some location }

/-- The per-listing loop with its `try/except`: a failing listing is skipped
and its 1-based ordinal is logged (`print(f"[{idx}] Error: …")`, modelled as
the returned index list); a successful record goes to `add_business`. -/
def processListings (cat loc : List Char) :
    List ListingEnv → BusinessList → Nat → BusinessList × List Nat
  | [], bl, _ => (bl, [])
  | e :: rest, bl, idx =>
    match extractRecord cat loc e with
    | Except.ok b => processListings cat loc rest (add_business bl b) (idx + 1)
    | Except.error _ =>
      let r := processListings cat loc rest bl (idx + 1)
      (r.1, idx :: r.2)

/-- The records of the listings whose extraction succeeds, in order. -/
def listingSuccesses (cat loc : List Char) (envs : List ListingEnv) : List Business :=
  envs.filterMap (fun e => (extractRecord cat loc e).toOption)

/-- The 1-based ordinals of the listings whose extraction raises, in order. -/
def listingErrorIndices (cat loc : List Char) : List ListingEnv → Nat → List Nat
  | [], _ => []
  | e :: rest, idx =>
    match extractRecord cat loc e with
    | Except.ok _ => listingErrorIndices cat loc rest (idx + 1)
    | Except.error _ => idx :: listingErrorIndices cat loc rest (idx + 1)

/-- The message of the `RuntimeError` raised on zero anchors (line 156). -/
def noListingsMsg : List Char :=
  "No listings found. Try a different query or increase wait time.".toList

/-- The browser environment a whole run sees: `navFails` is `some msg` when an
unguarded pre-loop browser operation (the initial `goto`, the search fill or
key press) raises with message `msg`; `counts` gives the anchor count of each
successive DOM query; `listingEnvs i` is the behaviour of the `i`-th anchor's
listing. -/
structure PipelineEnv where
  navFails : Option (List Char)
  counts : Nat → Nat
  listingEnvs : Nat → ListingEnv

/-- `scrape_businesses_core` (lines 112–213 of `src/app.py`) with the browser
abstracted into `PipelineEnv`: parse the query, navigate and search (an
exception here propagates), run the scroll loop, snapshot the anchors, raise
the fatal no-listings error when there are none, else process the first
`total` listings.  The export step is an external collaborator; the pipeline's
output is the deduplicated record sequence plus the logged failure ordinals. -/
def scrape_businesses_core (env : PipelineEnv) (query : List Char) (total : Nat) :
    Except (List Char) (BusinessList × List Nat) :=
  let pq := parseQuery query
  match env.navFails with
  | some msg => Except.error msg
  | none =>
    let iters := (scrollLoop env.counts total).1
    let anchorCount := env.counts iters
    if anchorCount = 0 then Except.error noListingsMsg
    else
      let listingList := ((List.range anchorCount).map env.listingEnvs).take total
      Except.ok (processListings pq.category pq.location listingList emptyBusinessList 1)

/-- A listing environment whose every lookup fails (used as a dummy). -/
def trivialListingEnv : ListingEnv :=
  { clickFails := true,
    namePrimary := c4WitnessEmpty, nameFallback := c4WitnessEmpty,
    nameGeneric := c4WitnessEmpty, addressLoc := c4WitnessEmpty,
    websiteLoc := c4WitnessEmpty, phoneLoc := c4WitnessEmpty,
    emailFetch := Except.error () }

/-- The navigation failure used by the C8 counterexample. -/
def c8NavMsg : List Char := "Timeout 60000ms exceeded.".toList

/-- An environment whose initial navigation raises. -/
def c8Env : PipelineEnv :=
  { navFails := some c8NavMsg, counts := fun _ => 7,
    listingEnvs := fun _ => trivialListingEnv }

/-- An environment that navigates fine but whose result pane stays empty. -/
def c8WitnessEnv : PipelineEnv :=
  { navFails := none, counts := fun _ => 0,
    listingEnvs := fun _ => trivialListingEnv }

/-- An environment for the C10 witness: empty result pane throughout. -/
def c10WitnessEnv : PipelineEnv :=
  { navFails := none, counts := fun _ => 0,
    listingEnvs := fun _ => trivialListingEnv }

/- ------------------------------------------------------------------ -/
/- Theorems -/
/- ------------------------------------------------------------------ -/

/-- Claim C7: e-mail discovery returns the leftmost `EMAIL_REGEX` match of the
page markup — on the example markup this is `"sales@acme.com"`, the first of
the two addresses — and returns `""` when navigation fails, when the content
is `None`, and in general exactly the leftmost match (or `""`) on any markup. -/
theorem C7_theorem :
    scrape_email_from_website
        (Except.ok (some "Contact us at sales@acme.com or support@acme.com".toList))
      = "sales@acme.com".toList ∧
    (∀ e : Unit, scrape_email_from_website (Except.error e) = []) ∧
    scrape_email_from_website (Except.ok none) = [] ∧
    (∀ html : List Char, scrape_email_from_website (Except.ok (some html))
      = (findFirstEmail html).getD []) := by
  refine ⟨by decide, fun e => rfl, rfl, fun html => ?_⟩
  show (match findFirstEmail html with
    | some m => m
    | none => ([] : List Char)) = (findFirstEmail html).getD []
  cases findFirstEmail html <;> rfl

/-- Claim C6: for truthy website text the record's `domain` is the raw text and
`website` is the normalization: unchanged when the text starts with `http`,
otherwise `https://www.` prefixed; in either case the stored website starts with
`http` (the model of "is an absolute URL"). -/
theorem C6_theorem (b : Business) (t : List Char) (ht : t ≠ []) :
    (applyWebsiteFields b t).website = some (normalizeWebsite t) ∧
    (applyWebsiteFields b t).domain = some t ∧
    ("http".toList.isPrefixOf t = true → normalizeWebsite t = t) ∧
    ("http".toList.isPrefixOf t = false →
      normalizeWebsite t = "https://www.".toList ++ t) ∧
    "http".toList.isPrefixOf (normalizeWebsite t) = true := by
  have hne : t.isEmpty = false := by
    cases t with
    | nil => exact absurd rfl ht
    | cons c cs => rfl
  refine ⟨by simp [applyWebsiteFields, hne], by simp [applyWebsiteFields, hne], ?_, ?_, ?_⟩
  · intro hp
    unfold normalizeWebsite
    rw [hp]
    rfl
  · intro hp
    unfold normalizeWebsite
    rw [hp]
    rfl
  · cases hp : "http".toList.isPrefixOf t with
    | true =>
      unfold normalizeWebsite
      rw [hp]
      exact hp
    | false =>
      have hpre : "http".toList <+: "https://www.".toList ++ t :=
        List.IsPrefix.trans (by decide) (List.prefix_append _ t)
      unfold normalizeWebsite
      rw [hp]
      exact List.isPrefixOf_iff_prefix.mpr hpre

/-- Witness for C6: `"acme.com"` normalizes to `"https://www.acme.com"`. -/
theorem C6_witness :
    (applyWebsiteFields {} "acme.com".toList).website
      = some "https://www.acme.com".toList := by
  have h := C6_theorem {} "acme.com".toList (by decide)
  rw [h.1, h.2.2.2.1 (by decide)]
  decide

/-- Claim C4 (counterexample): when the first matched element's text is empty
but a later element's text is `"Acme Co"`, `_safe_text` returns `""` — not the
trimmed text of the first matching non-empty element. -/
theorem C4_counterexample :
    safeText c4Loc = [] ∧
    specFirstNonEmptyText c4Loc.texts = "Acme Co".toList ∧
    safeText c4Loc ≠ specFirstNonEmptyText c4Loc.texts := by
  refine ⟨by decide, by decide, by decide⟩

/-- Claim C4 (amended): `_safe_text` never raises; when no access fails and at
least one element matches it returns the trimmed text of the FIRST matching
element (which may itself be empty); it returns `""` whenever no element
matches or the count/text access fails. -/
theorem C4_theorem (loc : LocBehavior) :
    (loc.countFails = false → loc.textFails = false → loc.texts ≠ [] →
      safeText loc = pyStrip (loc.texts.headD [])) ∧
    (loc.texts = [] → safeText loc = []) ∧
    (loc.countFails = true → safeText loc = []) ∧
    (loc.textFails = true → safeText loc = []) := by
  refine ⟨?_, ?_, ?_, ?_⟩
  · intro hc ht hne
    simp [safeText, safeTextBody, hc, ht, List.length_eq_zero, hne]
  · intro hne
    by_cases hc : loc.countFails
    · simp [safeText, safeTextBody, hc]
    · simp [safeText, safeTextBody, hc, hne]
  · intro hc
    simp [safeText, safeTextBody, hc]
  · intro ht
    by_cases hc : loc.countFails
    · simp [safeText, safeTextBody, hc]
    · by_cases hne : loc.texts = []
      · simp [safeText, safeTextBody, hc, hne]
      · simp [safeText, safeTextBody, hc, ht, List.length_eq_zero, hne]

/-- Witness for C4: the amended theorem applied at concrete locator
behaviours (ordinary hit, zero matches, failing count, failing text read). -/
theorem C4_witness :
    safeText c4WitnessOk = "Acme".toList ∧ safeText c4WitnessEmpty = [] ∧
    safeText c4WitnessCountFail = [] ∧ safeText c4WitnessTextFail = [] := by
  refine ⟨?_, ?_, ?_, ?_⟩
  · rw [(C4_theorem c4WitnessOk).1 rfl rfl (by decide)]
    decide
  · exact (C4_theorem c4WitnessEmpty).2.1 rfl
  · exact (C4_theorem c4WitnessCountFail).2.2.1 rfl
  · exact (C4_theorem c4WitnessTextFail).2.2.2 rfl

/-- `pySplitIn` decomposes as: the text before the first separator, followed by
the split of the text after the first separator (if any). -/
theorem pySplitIn_decomp (l : List Char) :
    pySplitIn l = beforeFirstIn l :: ((afterFirstIn l).elim [] pySplitIn) := by
  induction l using pySplitIn.induct with
  | case1 => rfl
  | case2 rest => simp [pySplitIn, beforeFirstIn, afterFirstIn]
  | case3 c rest h hnil ihd =>
    rw [hnil] at ihd
    exact absurd ihd (by simp)
  | case4 c rest h p ps heq ihd =>
    rw [pySplitIn, beforeFirstIn, afterFirstIn]
    · rw [heq]
      rw [heq] at ihd
      rw [List.cons.injEq] at ihd
      rw [ihd.1, ihd.2]
    · exact h
    · exact h
    · exact h

theorem truthy_eq_some (o : Option (List Char)) (h : truthy o = true) :
    o = some (strOrEmpty o) := by
  cases o with
  | none => simp [truthy] at h
  | some s => rfl

theorem identityKey_getElem_one (b : Business) (h : truthy b.domain = true) :
    (identityKey b)[1]? = some ("domain:".toList ++ strOrEmpty b.domain) := by
  simp [identityKey, h]

/-- `pySplitIn` never returns the empty list. -/
theorem pySplitIn_ne_nil (l : List Char) : pySplitIn l ≠ [] := by
  rw [pySplitIn_decomp l]
  simp

/-- Claim C2 (counterexample): on `"stores in york in uk"` the parser's
`location` is `"york"` (the text between the first and second separators),
not `"york in uk"` (the entire text after the first separator) as claimed. -/
theorem C2_counterexample :
    (parseQuery "stores in york in uk".toList).location = "york".toList ∧
    (parseQuery "stores in york in uk".toList).location ≠ "york in uk".toList := by
  constructor
  · decide
  · decide

/-- Claim C2 (amended): the parser splits on every occurrence of `" in "` and
trims each part: `category` is the trimmed text before the first separator (or
the whole trimmed string when the separator is absent), and `location` is the
trimmed text strictly between the first separator and the following one (or to
the end of the string when the first separator is the last) — empty when the
separator is absent. -/
theorem C2_theorem (q : List Char) :
    (parseQuery q).category = pyStrip (beforeFirstIn q) ∧
    (parseQuery q).location
      = (afterFirstIn q).elim [] (fun r => pyStrip (beforeFirstIn r)) := by
  constructor
  · show ((pySplitIn q).map pyStrip).headD q = pyStrip (beforeFirstIn q)
    rw [pySplitIn_decomp q]
    rfl
  · show ((pySplitIn q).map pyStrip).getD 1 [] = _
    rw [pySplitIn_decomp q]
    cases h : afterFirstIn q with
    | none => rfl
    | some r =>
      simp only [Option.elim]
      rw [pySplitIn_decomp r]
      rfl

/-- Records that agree on all four hashed fields have equal identity keys. -/
theorem identityKey_congr (b1 b2 : Business) (hn : b1.name = b2.name)
    (hd : b1.domain = b2.domain) (hw : b1.website = b2.website)
    (hp : b1.phone_number = b2.phone_number) :
    identityKey b1 = identityKey b2 := by
  simp [identityKey, hn, hd, hw, hp]

/-- Records with truthy but different domains have different identity keys. -/
theorem identityKey_ne_of_domain_ne (b1 b2 : Business)
    (h1 : truthy b1.domain = true) (h2 : truthy b2.domain = true)
    (hd : b1.domain ≠ b2.domain) : identityKey b1 ≠ identityKey b2 := by
  intro he
  apply hd
  have e1 := identityKey_getElem_one b1 h1
  have e2 := identityKey_getElem_one b2 h2
  rw [he, e2] at e1
  have : strOrEmpty b2.domain = strOrEmpty b1.domain := by
    have := Option.some.inj e1
    exact List.append_cancel_left this
  rw [truthy_eq_some b1.domain h1, truthy_eq_some b2.domain h2, this]

/-- Core dedup invariant: starting from a state where every stored record's key
is marked seen and the stored records have pairwise distinct keys, adding any
records preserves both facts. -/
theorem addAll_invariant (rs : List Business) (bl : BusinessList)
    (hsub : ∀ b ∈ bl.business_list, identityKey b ∈ bl.seen_businesses)
    (hpw : bl.business_list.Pairwise (fun a b => identityKey a ≠ identityKey b)) :
    (∀ b ∈ (addAll bl rs).business_list,
        identityKey b ∈ (addAll bl rs).seen_businesses) ∧
    (addAll bl rs).business_list.Pairwise (fun a b => identityKey a ≠ identityKey b) := by
  induction rs generalizing bl with
  | nil => exact ⟨hsub, hpw⟩
  | cons r rest ih =>
    simp only [addAll]
    apply ih
    · intro b hb
      unfold add_business
      by_cases hmem : identityKey r ∈ bl.seen_businesses
      · simp only [if_pos hmem]
        simp only [add_business, if_pos hmem] at hb
        exact hsub b hb
      · simp only [if_neg hmem]
        simp only [add_business, if_neg hmem] at hb
        rcases List.mem_append.mp hb with h | h
        · exact List.mem_cons_of_mem _ (hsub b h)
        · simp only [List.mem_singleton] at h
          subst h
          exact List.mem_cons_self _ _
    · unfold add_business
      by_cases hmem : identityKey r ∈ bl.seen_businesses
      · simpa [if_pos hmem] using hpw
      · simp only [if_neg hmem]
        rw [List.pairwise_append]
        refine ⟨hpw, List.pairwise_singleton _ _, ?_⟩
        intro a ha b hb
        simp only [List.mem_singleton] at hb
        subst hb
        intro he
        exact hmem (he ▸ hsub a ha)

/-- Claim C1 (counterexample): two records with identical `name` and `domain`
but differing in every other field (in particular in `website` and
`phone_number`, which also enter the identity key) are both retained, so the
result sequence has length 2, not 1. -/
theorem C1_counterexample :
    (addAll emptyBusinessList [c1First, c1Second]).business_list.length ≠ 1 ∧
    (addAll emptyBusinessList [c1First, c1Second]).business_list = [c1First, c1Second] := by
  constructor
  · decide
  · decide

/-- Claim C1 (amended): two records that agree on `name`, `domain`, `website`
and `phone_number` (the four fields entering the identity key), whatever their
other fields, collapse to a single entry and the first-seen record is the one
retained. -/
theorem C1_theorem (b1 b2 : Business) (hn : b1.name = b2.name)
    (hd : b1.domain = b2.domain) (hw : b1.website = b2.website)
    (hp : b1.phone_number = b2.phone_number) :
    (addAll emptyBusinessList [b1, b2]).business_list = [b1] := by
  have hkey : identityKey b2 = identityKey b1 :=
    (identityKey_congr b1 b2 hn hd hw hp).symm
  simp [addAll, add_business, emptyBusinessList, hkey]

/-- Witness for C1: the amended theorem applied at concrete records. -/
theorem C1_witness :
    (addAll emptyBusinessList [c1WitnessFirst, c1WitnessSecond]).business_list
      = [c1WitnessFirst] :=
  C1_theorem c1WitnessFirst c1WitnessSecond rfl rfl rfl rfl

/-- Claim C5: (1) after any sequence of insertions starting from the empty
deduplicator, no two records in the result sequence share an identity key;
(2) two records with the same `name` but different truthy `domain` values are
both retained, in insertion order. -/
theorem C5_theorem :
    (∀ rs : List Business,
      (addAll emptyBusinessList rs).business_list.Pairwise
        (fun a b => identityKey a ≠ identityKey b)) ∧
    (∀ b1 b2 : Business, b1.name = b2.name → truthy b1.domain = true →
      truthy b2.domain = true → b1.domain ≠ b2.domain →
      (addAll emptyBusinessList [b1, b2]).business_list = [b1, b2]) := by
  constructor
  · intro rs
    exact (addAll_invariant rs emptyBusinessList (by simp [emptyBusinessList])
      (by simp [emptyBusinessList])).2
  · intro b1 b2 _hn h1 h2 hd
    have hkey : identityKey b2 ≠ identityKey b1 :=
      fun he => identityKey_ne_of_domain_ne b1 b2 h1 h2 hd he.symm
    simp [addAll, add_business, emptyBusinessList, hkey]

/-- Witness for C5: the distinctness half applied at concrete records. -/
theorem C5_witness :
    (addAll emptyBusinessList [c5WitnessFirst, c5WitnessSecond]).business_list
      = [c5WitnessFirst, c5WitnessSecond] :=
  C5_theorem.2 c5WitnessFirst c5WitnessSecond rfl (by decide) (by decide) (by decide)

theorem scrollLoopAux_reached (c : Nat → Nat) (t p i n : Nat) (h : t ≤ c i) :
    scrollLoopAux c t p i (n + 1) = (i + 1, ScrollExit.reachedTotal) := by
  simp [scrollLoopAux, h]

theorem scrollLoopAux_stall (c : Nat → Nat) (t p i n : Nat) (h1 : ¬ t ≤ c i)
    (h2 : c i = p) : scrollLoopAux c t p i (n + 1) = (i + 1, ScrollExit.stalled) := by
  simp [scrollLoopAux, h1, h2]
  omega

theorem scrollLoopAux_continue (c : Nat → Nat) (t p i n : Nat) (h1 : ¬ t ≤ c i)
    (h2 : c i ≠ p) :
    scrollLoopAux c t p i (n + 1) = scrollLoopAux c t (c i) (i + 1) n := by
  simp [scrollLoopAux, h1, h2]

/-- Claim C3 (counterexample): with the counter sequence `[5, 12, 20, 20]` the
loop executes four iterations before the stall check fires (the stall is only
observable on the fourth counter reading), so it does not halt at the third
iteration as claimed. -/
theorem C3_counterexample :
    (scrollLoop counts3 100).1 = 4 ∧ (scrollLoop counts3 100).1 ≠ 3 := by
  refine ⟨by decide, by decide⟩

/-- Claim C3 (amended): for any requested total above 20, the loop on the
counter sequence `[5, 12, 20, 20, …]` halts at the FOURTH iteration via the
stall check, with exactly 20 listings available to the post-loop snapshot,
well below the 50-iteration cap. -/
theorem C3_theorem (total : Nat) (h : 20 < total) :
    scrollLoop counts3 total = (4, ScrollExit.stalled) ∧
    counts3 (scrollLoop counts3 total).1 = 20 ∧
    (scrollLoop counts3 total).1 < 50 := by
  have e0 : counts3 0 = 5 := rfl
  have e1 : counts3 1 = 12 := rfl
  have e2 : counts3 2 = 20 := rfl
  have e3 : counts3 3 = 20 := rfl
  have hs : scrollLoop counts3 total = (4, ScrollExit.stalled) := by
    unfold scrollLoop
    rw [show (50 : Nat) = 49 + 1 from rfl,
      scrollLoopAux_continue counts3 total 0 0 49 (by rw [e0]; omega) (by rw [e0]; omega),
      e0]
    rw [show (49 : Nat) = 48 + 1 from rfl,
      scrollLoopAux_continue counts3 total 5 (0 + 1) 48 (by rw [e1]; omega) (by rw [e1]; omega),
      e1]
    rw [show (48 : Nat) = 47 + 1 from rfl,
      scrollLoopAux_continue counts3 total 12 (0 + 1 + 1) 47 (by rw [e2]; omega) (by rw [e2]; omega),
      e2]
    rw [show (47 : Nat) = 46 + 1 from rfl,
      scrollLoopAux_stall counts3 total 20 (0 + 1 + 1 + 1) 46 (by rw [e3]; omega) (by rw [e3])]
  refine ⟨hs, by rw [hs]; rfl, by rw [hs]; decide⟩

/-- Witness for C3: the amended theorem applied at the concrete total 100. -/
theorem C3_witness : scrollLoop counts3 100 = (4, ScrollExit.stalled) :=
  (C3_theorem 100 (by decide)).1

/-- Claim C9: the per-listing loop is total (every exception in a listing body
is caught); it yields exactly the records of the successfully extracted
listings, fed to the deduplicator in listing order — so a failing listing
never prevents later listings from being added — and it logs exactly the
1-based ordinals of the failing listings. -/
theorem C9_theorem (cat loc : List Char) (envs : List ListingEnv)
    (bl : BusinessList) (idx : Nat) :
    processListings cat loc envs bl idx
      = (addAll bl (listingSuccesses cat loc envs), listingErrorIndices cat loc envs idx) := by
  induction envs generalizing bl idx with
  | nil => rfl
  | cons e rest ih =>
    cases h : extractRecord cat loc e with
    | ok b =>
      simp [processListings, listingSuccesses, listingErrorIndices, h, ih, addAll,
        Except.toOption, List.filterMap_cons]
    | error err =>
      simp [processListings, listingSuccesses, listingErrorIndices, h, ih, addAll,
        Except.toOption, List.filterMap_cons]

/-- Claim C8 (amended, part 1): whenever the pre-loop navigation succeeds and
the post-loop anchor snapshot is empty, the pipeline fails with exactly the
fatal no-listings error, and — the result being an `Except.error` — produces
no record sequence and no output at all. -/
theorem C8_theorem (env : PipelineEnv) (query : List Char) (total : Nat)
    (hnav : env.navFails = none)
    (hz : env.counts (scrollLoop env.counts total).1 = 0) :
    scrape_businesses_core env query total = Except.error noListingsMsg := by
  unfold scrape_businesses_core
  rw [hnav]
  simp [hz]

/-- Witness for C8: the amended theorem applied at a concrete environment. -/
theorem C8_witness :
    scrape_businesses_core c8WitnessEnv "bars in hull".toList 50
      = Except.error noListingsMsg :=
  C8_theorem c8WitnessEnv "bars in hull".toList 50 rfl rfl

/-- Claim C8 (counterexample): the no-listings condition is NOT the only error
crossing the pipeline boundary — an unguarded navigation failure (e.g. a
timeout on the initial `goto`) also propagates to the caller, with a
different message. -/
theorem C8_counterexample :
    scrape_businesses_core c8Env "shops".toList 10 = Except.error c8NavMsg ∧
    c8NavMsg ≠ noListingsMsg := by
  refine ⟨rfl, by decide⟩

/-- Claim C10: with `previously_counted` initialized to `0`, a first observed
anchor count of `0` (and a positive requested total) makes the stall check
fire on the very first iteration; if the post-loop snapshot still sees no
anchors, the run then fails with the fatal no-listings error. -/
theorem C10_theorem (env : PipelineEnv) (query : List Char) (total : Nat)
    (hnav : env.navFails = none) (h0 : env.counts 0 = 0)
    (h1 : env.counts 1 = 0) (htot : 0 < total) :
    scrollLoop env.counts total = (1, ScrollExit.stalled) ∧
    scrape_businesses_core env query total = Except.error noListingsMsg := by
  have hs : scrollLoop env.counts total = (1, ScrollExit.stalled) := by
    unfold scrollLoop
    rw [show (50 : Nat) = 49 + 1 from rfl,
      scrollLoopAux_stall env.counts total 0 0 49 (by rw [h0]; omega) (by rw [h0])]
  refine ⟨hs, ?_⟩
  unfold scrape_businesses_core
  rw [hnav]
  simp [hs, h1]

/-- Witness for C10: the theorem applied at a concrete empty-pane environment. -/
theorem C10_witness :
    scrape_businesses_core c10WitnessEnv "cafes in york".toList 100
      = Except.error noListingsMsg :=
  (C10_theorem c10WitnessEnv "cafes in york".toList 100 rfl rfl rfl (by decide)).2
